import Mathlib

/-!
Verification of the `chauffe-coming-soon` client library.

The embedding mirrors `static/js/blockchain-client.js`. Network effects are
made explicit: each operation takes the outcome the remote would produce for
the fetches it may issue, returns the value the JS function returns (or the
thrown error, as `Except.error`), the updated client state, and the ordered
list of network requests actually dispatched. A JS `throw` that the function
does not catch is an `Except.error`; a caught-and-converted failure (as in
`checkApiHealth`) is an ordinary return value, so that function is total.

The DLOID codec and stats aggregation live in the Django profile view, which
is not part of the shipped sources; those definitions are modelled from the
spec (see the doc comments below).
-/

namespace ChauffeClient

/-- Parsed JSON body of the `/api/health` response: the code only inspects the
optional `version` field (`healthData.version`). -/
structure HealthData where
  version : Option String
deriving Repr, DecidableEq

/-- Outcome of one `fetch` of the health endpoint: either the fetch promise
rejects (transport failure: DNS, timeout, connection refused — the thrown
error's `message`), or a response arrives with a status code, status text and
a parsed JSON body. -/
inductive FetchOutcome where
  | failure (message : String)
  | response (status : Nat) (statusText : String) (body : HealthData)
deriving Repr, DecidableEq

/-- JS truthiness of an optional string field: `undefined`/`null` and the
empty string are falsy. -/
def jsTruthy : Option String → Bool
  | none => false
  | some s => !s.isEmpty

/-- `response.ok`: status in the inclusive-exclusive range 200..300. -/
def respOk (status : Nat) : Bool := decide (200 ≤ status ∧ status < 300)

/-- The verdict object returned by `checkApiHealth` / `validateApiVersion`.
Fields the JS code omits on some paths are `Option`s (or default-`false`
booleans) here. -/
structure Verdict where
  success : Bool
  compatible : Bool
  message : String
  version : Option String := none
  warning : Bool := false
  error : Option String := none
  expectedVersions : Option (List String) := none
  healthData : Option HealthData := none
deriving Repr, DecidableEq

/-- The mutable state of a `BlockchainClient` instance. -/
structure BlockchainClient where
  baseUrl : String
  expectedApiVersion : String
  compatibleVersions : List String
  apiVersionChecked : Bool
  apiCompatible : Bool
  lastHealthCheck : Option HealthData
deriving Repr, DecidableEq

/-- The constructor `new BlockchainClient(baseUrl)`. -/
def BlockchainClient.mkClient (baseUrl : String) : BlockchainClient where
  baseUrl := baseUrl
  expectedApiVersion := "1.0.0"
  compatibleVersions := ["1.0.0", "1.0.1", "1.1.0"]
  apiVersionChecked := false
  apiCompatible := false
  lastHealthCheck := none

/-- `validateApiVersion(apiVersion, healthData)`: membership of `apiVersion`
in `this.compatibleVersions` (exact string `includes`), setting
`apiVersionChecked` and `apiCompatible`, and returning the verdict object of
the matching branch. -/
def validateApiVersion (c : BlockchainClient) (apiVersion : String)
    (healthData : HealthData) : Verdict × BlockchainClient :=
  let isCompatible := c.compatibleVersions.contains apiVersion
  let c' := { c with apiVersionChecked := true, apiCompatible := isCompatible }
  if isCompatible then
    ({ success := true
       compatible := true
       version := some apiVersion
       message := "CloudManager API v" ++ apiVersion ++ " is compatible"
       healthData := some healthData }, c')
  else
    let versionText := if apiVersion.isEmpty then "unknown" else apiVersion
    ({ success := true
       compatible := false
       version := some apiVersion
       expectedVersions := some c.compatibleVersions
       message := "CloudManager API v" ++ versionText ++
         " may not be compatible. Expected: " ++
         String.intercalate ", " c.compatibleVersions
       healthData := some healthData
       warning := true }, c')

/-- `checkApiHealth()`: issues one GET of `/api/health`; every failure (fetch
rejection or non-ok status, which the code turns into a throw) is caught by
the surrounding `try`/`catch` and converted into a `success:false` verdict,
so the function always returns a verdict and never propagates an
exception. -/
def checkApiHealth (c : BlockchainClient) (probe : FetchOutcome) :
    Verdict × BlockchainClient :=
  match probe with
  | FetchOutcome.failure msg =>
      ({ success := false
         compatible := false
         error := some msg
         message := "CloudManager API unavailable: " ++ msg }, c)
  | FetchOutcome.response status statusText body =>
      if respOk status then
        let c1 := { c with lastHealthCheck := some body }
        if jsTruthy body.version then
          validateApiVersion c1 (body.version.getD "") body
        else
          ({ success := true
             compatible := true
             message := "API health OK (version unknown, assuming compatible)"
             healthData := some body
             version := some "unknown" },
           { c1 with apiVersionChecked := true, apiCompatible := true })
      else
        let thrown := "Health check failed! HTTP " ++ toString status ++ ": " ++
          statusText
        ({ success := false
           compatible := false
           error := some thrown
           message := "CloudManager API unavailable: " ++ thrown }, c)

/-- The `dloid_params` object as consumed by `createBlockchain` and built by
the smoke-test harness: eleven string-valued fields. -/
structure DloidParams where
  firstName : String
  lastName : String
  priorDloidQty : String
  chauffeQuantity : String
  partnershipStatus : String
  collateralizable : String
  inheritance : String
  convertibility : String
  rating : String
  shareEligible : String
  redeemability : String
deriving Repr, DecidableEq

/-- `parseInt(s) || 0`: after trimming, an optional sign followed by the
longest run of decimal digits; no digits (`NaN`) falls back to `0` via
`|| 0`. (Radix corner cases such as hex are irrelevant to the quantities the
page handles.) -/
def parseIntOr0 (s : String) : Int :=
  let cs := s.trim.toList
  let signAndRest : Int × List Char :=
    match cs with
    | '-' :: t => (-1, t)
    | '+' :: t => (1, t)
    | t => (1, t)
  let digits := signAndRest.2.takeWhile Char.isDigit
  if digits.isEmpty then 0
  else signAndRest.1 *
    (digits.foldl (fun n ch => 10 * n + (ch.toNat - '0'.toNat)) (0 : Nat) : Int)

/-- The JSON body `createBlockchain` POSTs to `/api/blockchains`. -/
structure CreatePayload where
  name : String
  first_name : String
  last_name : String
  existing_licenses : Int
  user_uuid : String
  dloid_params : DloidParams
deriving Repr, DecidableEq

/-- Construction of the POST body from `createBlockchain`'s arguments. -/
def mkPayload (name : String) (dloidParams : DloidParams)
    (userUuid : Option String) : CreatePayload where
  name := name
  first_name := dloidParams.firstName
  last_name := dloidParams.lastName
  existing_licenses := parseIntOr0 dloidParams.priorDloidQty
  user_uuid := userUuid.getD ""
  dloid_params := dloidParams

/-- Parsed JSON body of a successful create response. -/
structure CreateResponse where
  blockchain_id : String
  controller_name : Option String
deriving Repr, DecidableEq

/-- A thrown JS error value: `error` is a `new Error(message)` constructed by
this library; `fetchFailure` is the error object the `fetch` promise itself
rejected with (a transport failure). Neither carries any structured data
beyond its message. -/
inductive JsError where
  | error (message : String)
  | fetchFailure (message : String)
deriving Repr, DecidableEq

/-- The message of a thrown error (`error.message`). -/
def JsError.message : JsError → String
  | JsError.error m => m
  | JsError.fetchFailure m => m

/-- Outcome of one `fetch` POST: rejection with an error, or a response with a
status code and a body (carried both raw, for `response.text()`, and parsed,
for `response.json()`). -/
inductive PostOutcome where
  | failure (err : JsError)
  | response (status : Nat) (bodyText : String) (body : CreateResponse)
deriving Repr, DecidableEq

/-- A network request dispatched by the client, in program order. -/
inductive NetEvent where
  | healthGet
  | createPost (payload : CreatePayload)
deriving Repr, DecidableEq

/-- `createBlockchain(name, dloidParams, userUuid)`. Control flow of the
source: (1) `if (!userUuid) throw` before any fetch; (2) if
`!this.apiVersionChecked`, run `checkApiHealth` inline — an unsuccessful
verdict throws before the POST, a warning verdict is only logged; (3) POST
the payload — a non-ok status throws `HTTP error! status: N`, a fetch
rejection is rethrown unchanged by the `catch`. Returns the result, the
updated client and the dispatched requests in order. -/
def createBlockchain (c : BlockchainClient) (name : String)
    (dloidParams : DloidParams) (userUuid : Option String)
    (healthProbe : FetchOutcome) (post : PostOutcome) :
    Except JsError CreateResponse × BlockchainClient × List NetEvent :=
  if !jsTruthy userUuid then
    (Except.error (JsError.error "user_uuid is required for blockchain creation"),
     c, [])
  else
    let checked : Except JsError Unit × BlockchainClient × List NetEvent :=
      if !c.apiVersionChecked then
        let vc := checkApiHealth c healthProbe
        if !vc.1.success then
          (Except.error (JsError.error
             ("CloudManager API unavailable: " ++ vc.1.message)),
           vc.2, [NetEvent.healthGet])
        else
          (Except.ok (), vc.2, [NetEvent.healthGet])
      else
        (Except.ok (), c, [])
    match checked with
    | (Except.error e, c1, evs) => (Except.error e, c1, evs)
    | (Except.ok _, c1, evs) =>
      let evs' := evs ++ [NetEvent.createPost (mkPayload name dloidParams userUuid)]
      match post with
      | PostOutcome.failure err => (Except.error err, c1, evs')
      | PostOutcome.response status _ body =>
        if respOk status then (Except.ok body, c1, evs')
        else
          (Except.error (JsError.error ("HTTP error! status: " ++ toString status)),
           c1, evs')

/-- Parsed JSON body of the list endpoint: the harness only reads the
optional `count` field (`data.count || 0`). -/
structure ListData where
  count : Option Nat
deriving Repr, DecidableEq

/-- Outcome of the harness's GET of `/api/blockchains`. -/
inductive ListOutcome where
  | failure (message : String)
  | response (status : Nat) (body : ListData)
deriving Repr, DecidableEq

/-- One entry of the harness's `testResults` (the `blockchains` and
`createBlockchain` slots): fields absent on some paths are `Option`s. -/
structure EndpointResult where
  success : Bool
  message : String
  status : Option Nat := none
  error : Option String := none
  testBlockchainId : Option String := none
  controllerGenerated : Option Bool := none
deriving Repr, DecidableEq

/-- The `testResults` object built by `testApiEndpoints`. -/
structure TestResults where
  health : Verdict
  blockchains : EndpointResult
  createBlockchain : EndpointResult
  overall : String
deriving Repr, DecidableEq

/-- The success count the harness computes:
`allTests.filter(test => test?.success).length`. -/
def successCount (tr : TestResults) : Nat :=
  (([tr.health.success, tr.blockchains.success, tr.createBlockchain.success]).filter
    (· = true)).length

/-- `testApiEndpoints()`: runs `checkApiHealth` (through `this`, so its writes
to the client land in the returned state), then a GET probe of the list
endpoint and a POST probe of the create endpoint — both probes only build
entries of the local `testResults` — and reduces the three `success` flags to
an `overall` classification. -/
def testApiEndpoints (c : BlockchainClient) (healthProbe : FetchOutcome)
    (listOutcome : ListOutcome) (createOutcome : PostOutcome) :
    TestResults × BlockchainClient :=
  let vc := checkApiHealth c healthProbe
  let blockchainsResult : EndpointResult :=
    match listOutcome with
    | ListOutcome.response status body =>
      if respOk status then
        { success := true
          message := "Blockchains endpoint OK (" ++ toString (body.count.getD 0) ++
            " blockchains)" }
      else
        { success := false
          message := "Blockchains endpoint error: HTTP " ++ toString status
          status := some status }
    | ListOutcome.failure msg =>
      { success := false
        message := "Blockchains endpoint failed: " ++ msg
        error := some msg }
  let createResult : EndpointResult :=
    match createOutcome with
    | PostOutcome.response status bodyText body =>
      if respOk status then
        { success := true
          message := "Blockchain creation endpoint OK"
          testBlockchainId := some body.blockchain_id
          controllerGenerated := some (jsTruthy body.controller_name) }
      else
        { success := false
          message := "Blockchain creation failed: HTTP " ++ toString status
          status := some status
          error := some bodyText }
    | PostOutcome.failure err =>
      { success := false
        message := "Blockchain creation test failed: " ++ err.message
        error := some err.message }
  let n := (([vc.1.success, blockchainsResult.success, createResult.success]).filter
    (· = true)).length
  let overall := if n = 3 then "success" else if 2 ≤ n then "warning" else "failure"
  ({ health := vc.1
     blockchains := blockchainsResult
     createBlockchain := createResult
     overall := overall }, vc.2)

/-- Modelled from the spec: the structured form of a DLOID record. The codec
itself lives in the Django profile view, which is not among the shipped
sources; field layout follows the spec's table (offsets 0–10 quantity,
10 partnershipStatus, 11 collateralizable, 12 inheritance, 13 convertibility,
14–23 rating, 23 shareEligible, 24 redeemability) and the layout line of
`PROFILE_PAGE_STATS.md`. -/
structure DloidFields where
  quantity : Nat
  partnershipStatus : Char
  collateralizable : Char
  inheritance : Char
  convertibility : Char
  rating : Nat
  shareEligible : Char
  redeemability : Char
deriving Repr, DecidableEq

/-- Value of a run of decimal digits, most significant first. -/
def digitsToNat (cs : List Char) : Nat :=
  cs.foldl (fun n ch => 10 * n + (ch.toNat - '0'.toNat)) 0

/-- Modelled from the spec: `decode(raw)` of the DLOID codec (the codec code
is not among the shipped sources). Malformed exactly when the length is not
25 or one of the two numeric sub-ranges (offsets 0–10 and 14–23) contains a
non-digit; flag characters pass through unvalidated. -/
def decode (raw : String) : Except String DloidFields :=
  let cs := raw.toList
  if cs.length ≠ 25 then
    Except.error "MalformedError: record must be exactly 25 characters"
  else
    let qty := cs.take 10
    let rat := (cs.drop 14).take 9
    if !(qty.all Char.isDigit) || !(rat.all Char.isDigit) then
      Except.error "MalformedError: numeric field contains a non-digit"
    else
      Except.ok
        { quantity := digitsToNat qty
          partnershipStatus := cs.getD 10 ' '
          collateralizable := cs.getD 11 ' '
          inheritance := cs.getD 12 ' '
          convertibility := cs.getD 13 ' '
          rating := digitsToNat rat
          shareEligible := cs.getD 23 ' '
          redeemability := cs.getD 24 ' ' }

/-- Whether `decode` rejects a raw record as malformed. -/
def decodeFailed (raw : String) : Bool :=
  match decode raw with
  | Except.error _ => true
  | Except.ok _ => false

/-- Outcome of the spec's aggregation: running total, number of skipped
records, and a diagnostic entry (index and reason) per skipped record. -/
structure AggregateResult where
  total : Nat
  skipped : Nat
  errors : List (Nat × String)
deriving Repr, DecidableEq

/-- Modelled from the spec: `aggregate(records)` of the Stats Aggregator (the
aggregation code is not among the shipped sources). For each record in order,
decode; on success add the quantity to the total; on a malformed record,
increment `skipped`, append one diagnostic entry, and continue. -/
def aggregate (records : List String) : AggregateResult :=
  (records.foldl
    (fun (p : AggregateResult × Nat) raw =>
      match decode raw with
      | Except.ok f => ({ p.1 with total := p.1.total + f.quantity }, p.2 + 1)
      | Except.error msg =>
        ({ p.1 with
            skipped := p.1.skipped + 1
            errors := p.1.errors ++ [(p.2, msg)] }, p.2 + 1))
    ({ total := 0, skipped := 0, errors := [] }, 0)).1

/-- Concrete `dloid_params` value (the harness's sentinel data), used to
instantiate universally quantified statements. -/
def dp0 : DloidParams where
  firstName := "APITest"
  lastName := "User"
  priorDloidQty := "0"
  chauffeQuantity := "0000100000"
  partnershipStatus := "L"
  collateralizable := "N"
  inheritance := "Y"
  convertibility := "2"
  rating := "000025000"
  shareEligible := "N"
  redeemability := "P"

/-- Concrete create-response body used to instantiate statements. -/
def cr0 : CreateResponse where
  blockchain_id := "bc-1"
  controller_name := some "CTL-1"

lemma checkApiHealth_failure_eq (c : BlockchainClient) (msg : String) :
    checkApiHealth c (FetchOutcome.failure msg) =
      ({ success := false
         compatible := false
         error := some msg
         message := "CloudManager API unavailable: " ++ msg }, c) := rfl

lemma checkApiHealth_notOk_eq (c : BlockchainClient) (status : Nat)
    (text : String) (hd : HealthData) (hok : respOk status = false) :
    checkApiHealth c (FetchOutcome.response status text hd) =
      ({ success := false
         compatible := false
         error := some ("Health check failed! HTTP " ++ toString status ++ ": " ++ text)
         message := "CloudManager API unavailable: " ++
           ("Health check failed! HTTP " ++ toString status ++ ": " ++ text) }, c) := by
  simp [checkApiHealth, hok]

lemma checkApiHealth_noVersion_eq (c : BlockchainClient) (status : Nat)
    (text : String) (hd : HealthData) (hok : respOk status = true)
    (hv : jsTruthy hd.version = false) :
    checkApiHealth c (FetchOutcome.response status text hd) =
      ({ success := true
         compatible := true
         message := "API health OK (version unknown, assuming compatible)"
         healthData := some hd
         version := some "unknown" },
       { c with lastHealthCheck := some hd
                apiVersionChecked := true
                apiCompatible := true }) := by
  simp [checkApiHealth, hok, hv]

lemma checkApiHealth_version_eq (c : BlockchainClient) (status : Nat)
    (text : String) (hd : HealthData) (v : String) (hok : respOk status = true)
    (hv : hd.version = some v) (hne : v.isEmpty = false) :
    checkApiHealth c (FetchOutcome.response status text hd) =
      validateApiVersion { c with lastHealthCheck := some hd } v hd := by
  simp [checkApiHealth, hok, hv, jsTruthy, hne]

lemma validateApiVersion_success_eq (c : BlockchainClient) (v : String)
    (hd : HealthData) : (validateApiVersion c v hd).1.success = true := by
  by_cases h : v ∈ c.compatibleVersions <;> simp [validateApiVersion, h]

lemma validateApiVersion_compatible_eq (c : BlockchainClient) (v : String)
    (hd : HealthData) :
    (validateApiVersion c v hd).1.compatible = c.compatibleVersions.contains v := by
  by_cases h : v ∈ c.compatibleVersions <;> simp [validateApiVersion, h]

lemma validateApiVersion_warning_eq (c : BlockchainClient) (v : String)
    (hd : HealthData) :
    (validateApiVersion c v hd).1.warning = !c.compatibleVersions.contains v := by
  by_cases h : v ∈ c.compatibleVersions <;> simp [validateApiVersion, h]

lemma checkApiHealth_failure_state (c : BlockchainClient) (probe : FetchOutcome)
    (h : (checkApiHealth c probe).1.success = false) :
    (checkApiHealth c probe).2 = c := by
  cases probe with
  | failure msg => rfl
  | response status text hd =>
    by_cases hok : respOk status = true
    · by_cases hv : jsTruthy hd.version = true
      · cases hveq : hd.version with
        | none => simp [jsTruthy, hveq] at hv
        | some v =>
          have hne : v.isEmpty = false := by
            simp [jsTruthy, hveq] at hv
            simpa using hv
          rw [checkApiHealth_version_eq c status text hd v hok hveq hne] at h
          rw [validateApiVersion_success_eq] at h
          exact absurd h (by simp)
      · rw [checkApiHealth_noVersion_eq c status text hd hok (by simpa using hv)] at h
        exact absurd h (by simp)
    · rw [checkApiHealth_notOk_eq c status text hd (by simpa using hok)]

/-- C1: `checkApiHealth` classifies every probe as the spec states — a
successful probe reporting a version is `success:true` with `compatible`
exactly membership of the version string in the configured list (and
`warning` exactly non-membership); a successful probe with no version field
is `success:true`, `compatible:true` with the explanatory message; a fetch
failure or a non-2xx status is `success:false`, `compatible:false`; and
membership is exact string equality, so "1.2.0" is classified
incompatible. -/
theorem checkApiHealth_classification (c : BlockchainClient)
    (hcv : c.compatibleVersions = ["1.0.0", "1.0.1", "1.1.0"]) :
    (∀ status text hd v, respOk status = true → hd.version = some v →
       v.isEmpty = false →
       (checkApiHealth c (FetchOutcome.response status text hd)).1.success = true ∧
       (checkApiHealth c (FetchOutcome.response status text hd)).1.compatible =
         (["1.0.0", "1.0.1", "1.1.0"] : List String).contains v ∧
       (checkApiHealth c (FetchOutcome.response status text hd)).1.warning =
         !((["1.0.0", "1.0.1", "1.1.0"] : List String).contains v)) ∧
    (∀ status text hd, respOk status = true → jsTruthy hd.version = false →
       (checkApiHealth c (FetchOutcome.response status text hd)).1.success = true ∧
       (checkApiHealth c (FetchOutcome.response status text hd)).1.compatible = true ∧
       (checkApiHealth c (FetchOutcome.response status text hd)).1.message =
         "API health OK (version unknown, assuming compatible)") ∧
    (∀ msg, (checkApiHealth c (FetchOutcome.failure msg)).1.success = false ∧
       (checkApiHealth c (FetchOutcome.failure msg)).1.compatible = false) ∧
    (∀ status text hd, respOk status = false →
       (checkApiHealth c (FetchOutcome.response status text hd)).1.success = false ∧
       (checkApiHealth c (FetchOutcome.response status text hd)).1.compatible = false) ∧
    (checkApiHealth c
      (FetchOutcome.response 200 "OK" ⟨some "1.2.0"⟩)).1.compatible = false := by
  refine ⟨?_, ?_, ?_, ?_, ?_⟩
  · intro status text hd v hok hv hne
    rw [checkApiHealth_version_eq c status text hd v hok hv hne]
    refine ⟨validateApiVersion_success_eq _ _ _, ?_, ?_⟩
    · rw [validateApiVersion_compatible_eq]
      simp [hcv]
    · rw [validateApiVersion_warning_eq]
      simp [hcv]
  · intro status text hd hok hv
    rw [checkApiHealth_noVersion_eq c status text hd hok hv]
    exact ⟨rfl, rfl, rfl⟩
  · intro msg
    rw [checkApiHealth_failure_eq]
    exact ⟨rfl, rfl⟩
  · intro status text hd hok
    rw [checkApiHealth_notOk_eq c status text hd hok]
    exact ⟨rfl, rfl⟩
  · rw [checkApiHealth_version_eq c 200 "OK" ⟨some "1.2.0"⟩ "1.2.0" (by decide)
      rfl (by decide)]
    rw [validateApiVersion_compatible_eq]
    simp [hcv]

/-- Witness for C1 at a concrete client and probe. -/
theorem checkApiHealth_classification_wit :
    (checkApiHealth (BlockchainClient.mkClient "http://x")
      (FetchOutcome.response 200 "OK" ⟨some "1.2.0"⟩)).1.compatible = false :=
  (checkApiHealth_classification (BlockchainClient.mkClient "http://x")
    rfl).2.2.2.2

/-- C5: against an unreachable service (the fetch rejects), `checkApiHealth`
returns an `UNAVAILABLE` verdict (`success:false`, `compatible:false`) on both
of two successive calls, leaves the client state untouched, and — being typed
as a total function into verdicts, mirroring its catch-all — propagates no
exception. -/
theorem checkApiHealth_unreachable_twice (c : BlockchainClient)
    (m1 m2 : String) :
    (checkApiHealth c (FetchOutcome.failure m1)).1.success = false ∧
    (checkApiHealth c (FetchOutcome.failure m1)).1.compatible = false ∧
    (checkApiHealth (checkApiHealth c (FetchOutcome.failure m1)).2
      (FetchOutcome.failure m2)).1.success = false ∧
    (checkApiHealth (checkApiHealth c (FetchOutcome.failure m1)).2
      (FetchOutcome.failure m2)).1.compatible = false ∧
    (checkApiHealth c (FetchOutcome.failure m1)).2 = c :=
  ⟨rfl, rfl, rfl, rfl, rfl⟩

/-- C3: whenever `userUuid` is falsy (`null`, `undefined` or the empty
string), `createBlockchain` throws the validation error immediately: the
result is the `user_uuid is required` error, the client state is untouched,
and the list of dispatched network requests is empty. -/
theorem createBlockchain_missing_uuid (c : BlockchainClient) (name : String)
    (dp : DloidParams) (uuid : Option String) (hp : FetchOutcome)
    (post : PostOutcome) (h : jsTruthy uuid = false) :
    createBlockchain c name dp uuid hp post =
      (Except.error (JsError.error "user_uuid is required for blockchain creation"),
       c, []) := by
  simp [createBlockchain, h]

/-- Witness for C3: `userUuid = null` on a concrete client issues no request. -/
theorem createBlockchain_missing_uuid_wit :
    createBlockchain (BlockchainClient.mkClient "http://x") "x" dp0 none
        (FetchOutcome.failure "unused") (PostOutcome.failure (JsError.fetchFailure "unused")) =
      (Except.error (JsError.error "user_uuid is required for blockchain creation"),
       BlockchainClient.mkClient "http://x", []) :=
  createBlockchain_missing_uuid (BlockchainClient.mkClient "http://x") "x" dp0
    none (FetchOutcome.failure "unused")
    (PostOutcome.failure (JsError.fetchFailure "unused")) rfl

lemma createBlockchain_unchecked_fail (c : BlockchainClient) (name : String)
    (dp : DloidParams) (uuid : Option String) (hp : FetchOutcome)
    (post : PostOutcome) (huuid : jsTruthy uuid = true)
    (hun : c.apiVersionChecked = false)
    (hfail : (checkApiHealth c hp).1.success = false) :
    createBlockchain c name dp uuid hp post =
      (Except.error (JsError.error
         ("CloudManager API unavailable: " ++ (checkApiHealth c hp).1.message)),
       (checkApiHealth c hp).2, [NetEvent.healthGet]) := by
  simp [createBlockchain, huuid, hun, hfail]

lemma createBlockchain_unchecked_ok (c : BlockchainClient) (name : String)
    (dp : DloidParams) (uuid : Option String) (hp : FetchOutcome)
    (post : PostOutcome) (huuid : jsTruthy uuid = true)
    (hun : c.apiVersionChecked = false)
    (hsucc : (checkApiHealth c hp).1.success = true) :
    (createBlockchain c name dp uuid hp post).2.2 =
      [NetEvent.healthGet, NetEvent.createPost (mkPayload name dp uuid)] ∧
    (createBlockchain c name dp uuid hp post).2.1 = (checkApiHealth c hp).2 := by
  cases post with
  | failure err => simp [createBlockchain, huuid, hun, hsucc]
  | response status bodyText body =>
    by_cases hok : respOk status = true <;>
      simp [createBlockchain, huuid, hun, hsucc, hok]

/-- C2: on a client that has not yet resolved a compatibility check,
`createBlockchain` runs `checkApiHealth` inline before the POST: an
`UNAVAILABLE` verdict (`success:false`) makes it throw the fatal
`CloudManager API unavailable` error with no POST among the dispatched
requests, while any successful verdict — warnings included — lets the POST
through, with the health probe strictly preceding it in the request order,
and the check's state updates cached on the instance. -/
theorem createBlockchain_check_before_post (c : BlockchainClient)
    (name : String) (dp : DloidParams) (uuid : Option String)
    (hp : FetchOutcome) (post : PostOutcome) (huuid : jsTruthy uuid = true)
    (hun : c.apiVersionChecked = false) :
    ((checkApiHealth c hp).1.success = false →
       (createBlockchain c name dp uuid hp post).1 =
         Except.error (JsError.error
           ("CloudManager API unavailable: " ++ (checkApiHealth c hp).1.message)) ∧
       (createBlockchain c name dp uuid hp post).2.2 = [NetEvent.healthGet] ∧
       ∀ p, NetEvent.createPost p ∉ (createBlockchain c name dp uuid hp post).2.2) ∧
    ((checkApiHealth c hp).1.success = true →
       (createBlockchain c name dp uuid hp post).2.2 =
         [NetEvent.healthGet, NetEvent.createPost (mkPayload name dp uuid)] ∧
       (createBlockchain c name dp uuid hp post).2.1 = (checkApiHealth c hp).2) := by
  constructor
  · intro hfail
    rw [createBlockchain_unchecked_fail c name dp uuid hp post huuid hun hfail]
    refine ⟨rfl, rfl, ?_⟩
    intro p
    simp
  · intro hsucc
    exact createBlockchain_unchecked_ok c name dp uuid hp post huuid hun hsucc

/-- Witness for C2: a fresh client, an unreachable remote on one side and a
healthy remote on the other. -/
theorem createBlockchain_check_before_post_wit :
    ((createBlockchain (BlockchainClient.mkClient "http://x") "n" dp0
        (some "u") (FetchOutcome.failure "refused")
        (PostOutcome.response 201 "" cr0)).2.2 = [NetEvent.healthGet] ∧
     (createBlockchain (BlockchainClient.mkClient "http://x") "n" dp0
        (some "u") (FetchOutcome.response 200 "OK" ⟨some "2.0.0"⟩)
        (PostOutcome.response 201 "" cr0)).2.2 =
       [NetEvent.healthGet, NetEvent.createPost (mkPayload "n" dp0 (some "u"))]) :=
  ⟨((createBlockchain_check_before_post (BlockchainClient.mkClient "http://x")
      "n" dp0 (some "u") (FetchOutcome.failure "refused")
      (PostOutcome.response 201 "" cr0) rfl rfl).1 rfl).2.1,
   ((createBlockchain_check_before_post (BlockchainClient.mkClient "http://x")
      "n" dp0 (some "u") (FetchOutcome.response 200 "OK" ⟨some "2.0.0"⟩)
      (PostOutcome.response 201 "" cr0) rfl rfl).2 (by decide)).1⟩

/-- C9: a `success:false` verdict leaves the client state — in particular
`apiVersionChecked` — exactly as it was, so after a failed check on a
never-checked instance the next `createBlockchain` call re-runs the health
probe (its request trace starts with the health GET) rather than treating the
failed check as resolved. -/
theorem failed_check_is_unchecked (c : BlockchainClient) (probe : FetchOutcome)
    (h : (checkApiHealth c probe).1.success = false) :
    (checkApiHealth c probe).2 = c ∧
    (checkApiHealth c probe).2.apiVersionChecked = c.apiVersionChecked ∧
    (c.apiVersionChecked = false →
      ∀ name dp uuid hp post, jsTruthy uuid = true →
        NetEvent.healthGet ∈
          (createBlockchain (checkApiHealth c probe).2 name dp uuid hp post).2.2) := by
  have hstate := checkApiHealth_failure_state c probe h
  refine ⟨hstate, by rw [hstate], ?_⟩
  intro hun name dp uuid hp post huuid
  rw [hstate]
  by_cases hs : (checkApiHealth c hp).1.success = true
  · rw [(createBlockchain_unchecked_ok c name dp uuid hp post huuid hun hs).1]
    simp
  · rw [createBlockchain_unchecked_fail c name dp uuid hp post huuid hun
      (by simpa using hs)]
    simp

/-- Witness for C9: a fresh client whose probe is refused re-probes on the
next create. -/
theorem failed_check_is_unchecked_wit :
    NetEvent.healthGet ∈
      (createBlockchain
        (checkApiHealth (BlockchainClient.mkClient "http://x")
          (FetchOutcome.failure "refused")).2
        "n" dp0 (some "u") (FetchOutcome.failure "refused")
        (PostOutcome.response 201 "" cr0)).2.2 :=
  (failed_check_is_unchecked (BlockchainClient.mkClient "http://x")
      (FetchOutcome.failure "refused") rfl).2.2 rfl "n" dp0 (some "u")
    (FetchOutcome.failure "refused") (PostOutcome.response 201 "" cr0) rfl

/-- C10: once `apiVersionChecked` is `true`, `createBlockchain` dispatches
the POST as its only network request — no health probe is issued, the client
state (whatever `apiCompatible` caches, compatible or not) is left untouched,
and the outcome is independent of what a health probe would have returned. -/
theorem resolved_check_never_reprobed (c : BlockchainClient) (name : String)
    (dp : DloidParams) (uuid : Option String) (hp : FetchOutcome)
    (post : PostOutcome) (hchecked : c.apiVersionChecked = true)
    (huuid : jsTruthy uuid = true) :
    (createBlockchain c name dp uuid hp post).2.2 =
      [NetEvent.createPost (mkPayload name dp uuid)] ∧
    (createBlockchain c name dp uuid hp post).2.1 = c ∧
    (∀ hp', createBlockchain c name dp uuid hp' post =
      createBlockchain c name dp uuid hp post) := by
  refine ⟨?_, ?_, ?_⟩
  · cases post with
    | failure err => simp [createBlockchain, huuid, hchecked]
    | response status bodyText body =>
      by_cases hok : respOk status = true <;>
        simp [createBlockchain, huuid, hchecked, hok]
  · cases post with
    | failure err => simp [createBlockchain, huuid, hchecked]
    | response status bodyText body =>
      by_cases hok : respOk status = true <;>
        simp [createBlockchain, huuid, hchecked, hok]
  · intro hp'
    simp [createBlockchain, huuid, hchecked]

/-- Witness for C10: a checked client caching an incompatible verdict still
POSTs without re-probing. -/
theorem resolved_check_never_reprobed_wit :
    (createBlockchain
        { BlockchainClient.mkClient "http://x" with
            apiVersionChecked := true, apiCompatible := false }
        "n" dp0 (some "u") (FetchOutcome.failure "refused")
        (PostOutcome.response 201 "" cr0)).2.2 =
      [NetEvent.createPost (mkPayload "n" dp0 (some "u"))] :=
  (resolved_check_never_reprobed
    { BlockchainClient.mkClient "http://x" with
        apiVersionChecked := true, apiCompatible := false }
    "n" dp0 (some "u") (FetchOutcome.failure "refused")
    (PostOutcome.response 201 "" cr0) rfl rfl).1

/-- C4 counterexample: a non-2xx create response whose body is available is
rejected with an error that is identical for two different response bodies —
the rejection is a bare `Error` whose entire content is the message
`HTTP error! status: 500`, so it carries neither the response body nor any
structured status field. -/
theorem createBlockchain_no_structured_error_cex :
    (createBlockchain
        { BlockchainClient.mkClient "http://x" with apiVersionChecked := true }
        "n" dp0 (some "u") (FetchOutcome.failure "unused")
        (PostOutcome.response 500 "detailed reason A" cr0)).1 =
      (createBlockchain
        { BlockchainClient.mkClient "http://x" with apiVersionChecked := true }
        "n" dp0 (some "u") (FetchOutcome.failure "unused")
        (PostOutcome.response 500 "detailed reason B" cr0)).1 ∧
    (createBlockchain
        { BlockchainClient.mkClient "http://x" with apiVersionChecked := true }
        "n" dp0 (some "u") (FetchOutcome.failure "unused")
        (PostOutcome.response 500 "detailed reason A" cr0)).1 =
      Except.error (JsError.error "HTTP error! status: 500") :=
  ⟨rfl, rfl⟩

/-- C4 (amended): every non-2xx create response rejects with an `Error`
whose message is `HTTP error! status: N` — the numeric code is embedded in
the message string only, and the response body is never read, so the
rejection is independent of it; every transport failure rethrows the fetch's
own error unchanged. Callers must distinguish the two cases by inspecting
the message, as neither rejection carries a structured status field. -/
theorem createBlockchain_error_channel (c : BlockchainClient) (name : String)
    (dp : DloidParams) (uuid : Option String) (hp : FetchOutcome)
    (hchecked : c.apiVersionChecked = true) (huuid : jsTruthy uuid = true) :
    (∀ status bodyA bodyB body, respOk status = false →
       (createBlockchain c name dp uuid hp
           (PostOutcome.response status bodyA body)).1 =
         Except.error (JsError.error ("HTTP error! status: " ++ toString status)) ∧
       (createBlockchain c name dp uuid hp
           (PostOutcome.response status bodyA body)).1 =
         (createBlockchain c name dp uuid hp
           (PostOutcome.response status bodyB body)).1) ∧
    (∀ err, (createBlockchain c name dp uuid hp (PostOutcome.failure err)).1 =
       Except.error err) := by
  constructor
  · intro status bodyA bodyB body hok
    constructor <;> simp [createBlockchain, huuid, hchecked, hok]
  · intro err
    simp [createBlockchain, huuid, hchecked]

/-- Witness for C4's amended theorem at a concrete non-2xx status and a
concrete transport failure. -/
theorem createBlockchain_error_channel_wit :
    ((createBlockchain
        { BlockchainClient.mkClient "http://x" with apiVersionChecked := true }
        "n" dp0 (some "u") (FetchOutcome.failure "unused")
        (PostOutcome.response 404 "missing" cr0)).1 =
      Except.error (JsError.error "HTTP error! status: 404") ∧
     (createBlockchain
        { BlockchainClient.mkClient "http://x" with apiVersionChecked := true }
        "n" dp0 (some "u") (FetchOutcome.failure "unused")
        (PostOutcome.failure (JsError.fetchFailure "Failed to fetch"))).1 =
      Except.error (JsError.fetchFailure "Failed to fetch")) :=
  ⟨((createBlockchain_error_channel
      { BlockchainClient.mkClient "http://x" with apiVersionChecked := true }
      "n" dp0 (some "u") (FetchOutcome.failure "unused") rfl rfl).1
      404 "missing" "missing" cr0 (by decide)).1,
   (createBlockchain_error_channel
      { BlockchainClient.mkClient "http://x" with apiVersionChecked := true }
      "n" dp0 (some "u") (FetchOutcome.failure "unused") rfl rfl).2
      (JsError.fetchFailure "Failed to fetch")⟩

lemma overall_count_spec (n : Nat) (ov : String)
    (hov : ov = if n = 3 then "success" else if 2 ≤ n then "warning" else "failure")
    (hn : n ≤ 3) :
    (ov = "success" ↔ n = 3) ∧ (ov = "warning" ↔ n = 2) ∧
    (ov = "failure" ↔ n ≤ 1) := by
  subst hov
  interval_cases n <;> refine ⟨?_, ?_, ?_⟩ <;> simp

/-- C7: the harness's `overall` verdict is `success` exactly when all three
probe results carry `success:true`, `warning` exactly when exactly two do,
and `failure` exactly when at most one does. -/
theorem testApiEndpoints_overall_classification (c : BlockchainClient)
    (hp : FetchOutcome) (lo : ListOutcome) (co : PostOutcome) :
    ((testApiEndpoints c hp lo co).1.overall = "success" ↔
       successCount (testApiEndpoints c hp lo co).1 = 3) ∧
    ((testApiEndpoints c hp lo co).1.overall = "warning" ↔
       successCount (testApiEndpoints c hp lo co).1 = 2) ∧
    ((testApiEndpoints c hp lo co).1.overall = "failure" ↔
       successCount (testApiEndpoints c hp lo co).1 ≤ 1) := by
  have key : (testApiEndpoints c hp lo co).1.overall =
      (if successCount (testApiEndpoints c hp lo co).1 = 3 then "success"
       else if 2 ≤ successCount (testApiEndpoints c hp lo co).1 then "warning"
       else "failure") := rfl
  have hle : successCount (testApiEndpoints c hp lo co).1 ≤ 3 := by
    unfold successCount
    exact le_trans (List.length_filter_le _ _) (by simp)
  exact overall_count_spec _ _ key hle

/-- C8 counterexample: a harness run on a fresh client whose health probe
succeeds flips `apiVersionChecked` from `false` to `true` — the production
client path's mutable state is not left unchanged. -/
theorem testApiEndpoints_mutates_state_cex :
    ((testApiEndpoints (BlockchainClient.mkClient "http://x")
        (FetchOutcome.response 200 "OK" ⟨some "1.0.0"⟩)
        (ListOutcome.failure "down")
        (PostOutcome.failure (JsError.fetchFailure "down"))).2.apiVersionChecked
      = true) ∧
    (BlockchainClient.mkClient "http://x").apiVersionChecked = false :=
  ⟨rfl, rfl⟩

/-- C8 (amended): a harness run mutates the client exactly as its inner
`checkApiHealth` call does — `apiVersionChecked`, `apiCompatible` and
`lastHealthCheck` are shared with the production path and are updated
whenever the health probe resolves a verdict with `success:true`; the list
and create probes touch no client state, so the fields are unchanged
precisely when a bare `checkApiHealth` would leave them unchanged. -/
theorem testApiEndpoints_state_via_health_check (c : BlockchainClient)
    (hp : FetchOutcome) (lo : ListOutcome) (co : PostOutcome) :
    (testApiEndpoints c hp lo co).2 = (checkApiHealth c hp).2 := rfl

/-- C6: three records whose quantity fields decode to 100000, 50000 and
25000 aggregate to a total of 175000 with nothing skipped; appending a
malformed fourth record leaves the total at 175000 and adds exactly one
skip and one diagnostic entry — aggregation continues past the bad
record. -/
theorem aggregate_skip_and_continue (r1 r2 r3 bad : String)
    (f1 f2 f3 : DloidFields) (h1 : decode r1 = Except.ok f1)
    (h2 : decode r2 = Except.ok f2) (h3 : decode r3 = Except.ok f3)
    (hq1 : f1.quantity = 100000) (hq2 : f2.quantity = 50000)
    (hq3 : f3.quantity = 25000) (hbad : decodeFailed bad = true) :
    (aggregate [r1, r2, r3]).total = 175000 ∧
    (aggregate [r1, r2, r3]).skipped = 0 ∧
    (aggregate [r1, r2, r3, bad]).total = 175000 ∧
    (aggregate [r1, r2, r3, bad]).skipped = 1 ∧
    (aggregate [r1, r2, r3, bad]).errors.length = 1 := by
  obtain ⟨msg, hmsg⟩ : ∃ msg, decode bad = Except.error msg := by
    unfold decodeFailed at hbad
    cases hd : decode bad with
    | error m => exact ⟨m, rfl⟩
    | ok f =>
      rw [hd] at hbad
      simp at hbad
  refine ⟨?_, ?_, ?_, ?_, ?_⟩ <;>
    simp [aggregate, h1, h2, h3, hmsg, hq1, hq2, hq3]

/-- Witness for C6: the three documented DLOID records and the malformed
record `"BAD"`. -/
theorem aggregate_skip_and_continue_wit :
    (aggregate ["0000100000LNY2000010000NP", "0000050000LYY1000020000YM",
      "0000025000LNY3000015000NP"]).total = 175000 ∧
    (aggregate ["0000100000LNY2000010000NP", "0000050000LYY1000020000YM",
      "0000025000LNY3000015000NP"]).skipped = 0 ∧
    (aggregate ["0000100000LNY2000010000NP", "0000050000LYY1000020000YM",
      "0000025000LNY3000015000NP", "BAD"]).total = 175000 ∧
    (aggregate ["0000100000LNY2000010000NP", "0000050000LYY1000020000YM",
      "0000025000LNY3000015000NP", "BAD"]).skipped = 1 ∧
    (aggregate ["0000100000LNY2000010000NP", "0000050000LYY1000020000YM",
      "0000025000LNY3000015000NP", "BAD"]).errors.length = 1 :=
  aggregate_skip_and_continue "0000100000LNY2000010000NP"
    "0000050000LYY1000020000YM" "0000025000LNY3000015000NP" "BAD"
    ⟨100000, 'L', 'N', 'Y', '2', 10000, 'N', 'P'⟩
    ⟨50000, 'L', 'Y', 'Y', '1', 20000, 'Y', 'M'⟩
    ⟨25000, 'L', 'N', 'Y', '3', 15000, 'N', 'P'⟩
    rfl rfl rfl rfl rfl rfl (by decide)

end ChauffeClient
